import Mathlib

/-!
Shallow embedding of `src/asammdf/gui/widgets/viewbox.py`: the interactive
viewport (`ViewBoxWithCursor`) and its context-menu controller (`ViewBoxMenu`).

Numeric model: data/scene coordinates are rationals (`ℚ`), screen pixel
coordinates and wheel deltas are integers (`ℤ`), key combinations are the
combined Qt integer codes (`Nat`).  The view transform owned by the underlying
viewport primitive is modelled as a diagonal affine map (scale plus translate
per axis), which is the shape `pyqtgraph` uses for the child-group transform.
Qt signal emissions and the transform operations the handlers invoke are
recorded in an effect trace, in emission order; `ev.accept()` / `ev.ignore()`
is recorded in the `accepted` flag of each handler result.
-/

namespace Viewbox

/-- A point in scene or data coordinates. -/
structure Point where
  x : ℚ
  y : ℚ
deriving DecidableEq, Repr

def Point.sub (p q : Point) : Point := ⟨p.x - q.x, p.y - q.y⟩

def Point.neg (p : Point) : Point := ⟨-p.x, -p.y⟩

/-- Componentwise product with the two-entry axis mask (`dif * mask`). -/
def Point.maskMul (p : Point) (mx my : ℚ) : Point := ⟨p.x * mx, p.y * my⟩

/-- A screen-space point (integer pixel coordinates, `ev.screenPos()`). -/
structure SPoint where
  x : ℤ
  y : ℤ
deriving DecidableEq, Repr

/-- Diagonal affine transform, modelling `self.childGroup.transform()`. -/
structure Affine where
  sx : ℚ
  sy : ℚ
  tx : ℚ
  ty : ℚ
deriving DecidableEq, Repr

def Affine.map (t : Affine) (p : Point) : Point :=
  ⟨t.sx * p.x + t.tx, t.sy * p.y + t.ty⟩

/-- `fn.invertQTransform` on a diagonal affine transform. -/
def Affine.invert (t : Affine) : Affine :=
  ⟨t.sx⁻¹, t.sy⁻¹, -(t.tx / t.sx), -(t.ty / t.sy)⟩

/-- `tr.map(d) - tr.map(Point(0, 0))`: the linear part of `tr` applied to `d`. -/
def Affine.mapDelta (t : Affine) (d : Point) : Point :=
  (t.map d).sub (t.map ⟨0, 0⟩)

inductive MouseButton
| left
| middle
| right
| other
deriving DecidableEq, Repr

/-- `QtCore.Qt.ShiftModifier`. -/
def ShiftModifier : Nat := 0x02000000

/-- `QtCore.Qt.AltModifier`. -/
def AltModifier : Nat := 0x08000000

/-- `QtCore.Qt.Key_Shift`. -/
def Key_Shift : Nat := 0x01000020

/-- `QtCore.Qt.Key_Alt`. -/
def Key_Alt : Nat := 0x01000023

/-- `QtCore.QKeyCombination(modifiers, key).toCombined()`. -/
def toCombined (modifiers key : Nat) : Nat := Nat.lor modifiers key

/-- `ViewBoxWithCursor.X_zoom`. -/
def X_zoom : Nat := toCombined ShiftModifier Key_Shift

/-- `ViewBoxWithCursor.Y_zoom`. -/
def Y_zoom : Nat := toCombined AltModifier Key_Alt

/-- First component of `ViewBoxWithCursor.XY_zoom`. -/
def XY_zoom_fst : Nat := toCombined (Nat.lor ShiftModifier AltModifier) Key_Alt

/-- Second component of `ViewBoxWithCursor.XY_zoom`. -/
def XY_zoom_snd : Nat := toCombined (Nat.lor ShiftModifier AltModifier) Key_Shift

/-- `ViewBoxWithCursor.PanMode`. -/
def PanMode : ℤ := 3

/-- `ViewBoxWithCursor.CursorMode`. -/
def CursorMode : ℤ := 2

/-- `ViewBoxWithCursor.RectMode`. -/
def RectMode : ℤ := 1

/-- The sibling cursor widget, as far as this module reads it:
`self.cursor.value()` and `self.cursor.isVisible()`. -/
structure CursorInfo where
  value : ℚ
  visible : Bool
deriving DecidableEq, Repr

/-- The mutable state of `ViewBoxWithCursor` that the handlers read and write:
the `pg.ViewBox` state dictionary entries used by this module
(`mouseMode`, `mouseEnabled`, `aspectLocked`, `wheelScaleFactor`), the zoom
gesture fields `zoom` / `zoom_start`, the child-group transform, the pending
auto-range target flag (`_resetTarget` clears it), the current view range,
the weakly referenced cursor widget, and the persisted
`zoom_x_center_on_cursor` setting. -/
structure VBState where
  mouseMode : ℤ
  mouseEnabledX : Bool
  mouseEnabledY : Bool
  aspectLocked : Bool
  wheelScaleFactor : ℤ
  zoom : Option Nat
  zoom_start : Option Point
  childTransform : Affine
  targetSet : Bool
  viewXmin : ℚ
  viewXmax : ℚ
  viewYmin : ℚ
  viewYmax : ℚ
  cursor : Option CursorInfo
  settingZoomXCenterOnCursor : Bool
deriving DecidableEq, Repr

/-- A mouse drag event (`pyqtgraph` `MouseDragEvent`). -/
structure DragEv where
  button : MouseButton
  scenePos : Point
  lastScenePos : Point
  screenPos : SPoint
  lastScreenPos : SPoint
  buttonDownPosRight : Point
  isFinish : Bool
deriving DecidableEq, Repr

/-- A key event, carrying `ev.keyCombination().toCombined()`. -/
structure KeyEv where
  combined : Nat
deriving DecidableEq, Repr

/-- A mouse press event, carrying `ev.scenePos()`. -/
structure PressEv where
  scenePos : Point
deriving DecidableEq, Repr

/-- A wheel event: `ev.delta()` and `ev.pos()`. -/
structure WheelEv where
  delta : ℤ
  pos : Point
deriving DecidableEq, Repr

/-- One observable effect of a handler: a Qt signal emission or a transform
operation invoked on the underlying viewport primitive, in program order. -/
inductive Eff
| cursorMoved (ev : DragEv)
| zoomChanged (payload : Option (Point × Point × Option Nat))
| zoomFinished (payload : Point × Point × Option Nat)
| rangeChangedManually (mx my : Bool)
| stateChanged
| resetTarget
| translateBy (x y : Option ℚ)
| scaleBy (x y : Option ℚ) (center : Point)
| setXRange (lo hi padding : ℚ)
deriving DecidableEq, Repr

/-- Result of an event handler: the new viewport state, the effect trace, and
whether the event was accepted (`ev.accept()`) or ignored (`ev.ignore()`). -/
structure HRes where
  state : VBState
  effs : List Eff
  accepted : Bool
deriving DecidableEq, Repr

/-- `self.mapSceneToView(p)`: the inverse of the child-group transform. -/
def mapSceneToView (s : VBState) (p : Point) : Point :=
  (Affine.invert s.childTransform).map p

/-- Effect of `self.translateBy(x=x, y=y)` on the view range. -/
def applyTranslate (s : VBState) (x y : Option ℚ) : VBState :=
  { s with
    viewXmin := s.viewXmin + x.getD 0
    viewXmax := s.viewXmax + x.getD 0
    viewYmin := s.viewYmin + y.getD 0
    viewYmax := s.viewYmax + y.getD 0 }

/-- Effect of `self.scaleBy(x=x, y=y, center=center)` on the view range:
each enabled axis is scaled about the center, a `None` factor is a no-op. -/
def applyScale (s : VBState) (x y : Option ℚ) (center : Point) : VBState :=
  { s with
    viewXmin := center.x + (s.viewXmin - center.x) * x.getD 1
    viewXmax := center.x + (s.viewXmax - center.x) * x.getD 1
    viewYmin := center.y + (s.viewYmin - center.y) * y.getD 1
    viewYmax := center.y + (s.viewYmax - center.y) * y.getD 1 }

/-- Effect of `self.setXRange(lo, hi, padding=padding)` on the view range. -/
def applySetXRange (s : VBState) (lo hi padding : ℚ) : VBState :=
  { s with
    viewXmin := lo - padding * (hi - lo)
    viewXmax := hi + padding * (hi - lo) }

/-- Effect of `self._resetTarget()`: the pending auto-range target is cleared. -/
def resetTargetS (s : VBState) : VBState := { s with targetSet := false }

/-- `ViewBoxWithCursor.setMouseMode`.  Raising is modelled with `Except`:
on `error` the caller's state is untouched. -/
def setMouseMode (s : VBState) (mode : ℤ) : Except String (VBState × List Eff) :=
  if mode = PanMode ∨ mode = CursorMode ∨ mode = RectMode then
    .ok ({ s with mouseMode := mode }, [Eff.stateChanged])
  else
    .error "Mode must be ViewBoxWithCursor.PanMode, ViewBoxWithCursor.RectMode or ViewBoxWithCursor.CursorMode"

/-- Python `str.lower()` restricted to the ASCII strings this module compares. -/
def pyLower (m : String) : String := ⟨m.data.map Char.toLower⟩

/-- `ViewBoxWithCursor.setLeftButtonAction`. -/
def setLeftButtonAction (s : VBState) (mode : String) : Except String (VBState × List Eff) :=
  if pyLower mode = "rect" then setMouseMode s RectMode
  else if pyLower mode = "pan" then setMouseMode s PanMode
  else if pyLower mode = "cursor" then setMouseMode s CursorMode
  else
    .error "graphicsItems:ViewBox:setLeftButtonAction: unknown mode (Options are pan, cursor and rect)"

/-- `ViewBoxWithCursor.keyPressEvent`: arm the zoom modifier when no gesture
is started; always `ev.ignore()`. -/
def keyPressEvent (s : VBState) (ev : KeyEv) : HRes :=
  ⟨if s.zoom_start = none then { s with zoom := some ev.combined } else s, [], false⟩

/-- `ViewBoxWithCursor.keyReleaseEvent`: clear the armed modifier when no
gesture is started; always `ev.ignore()`. -/
def keyReleaseEvent (s : VBState) (_ev : KeyEv) : HRes :=
  ⟨if s.zoom_start = none then { s with zoom := none } else s, [], false⟩

/-- The membership test `self.zoom in (self.X_zoom, self.Y_zoom, *self.XY_zoom)`. -/
def recognizedZoom (z : Option Nat) : Bool :=
  z = some X_zoom || z = some Y_zoom || z = some XY_zoom_fst || z = some XY_zoom_snd

/-- `ViewBoxWithCursor.mousePressEvent`: start a zoom gesture in Cursor mode
with a recognized armed modifier; always `ev.ignore()`. -/
def mousePressEvent (s : VBState) (ev : PressEv) : HRes :=
  ⟨if s.mouseMode = CursorMode ∧ recognizedZoom s.zoom = true then
      { s with zoom_start := some (mapSceneToView s ev.scenePos) }
    else s, [], false⟩

/-- `ViewBoxWithCursor.mouseDragEvent`. -/
def mouseDragEvent (s : VBState) (ev : DragEv) (axis : Option (Fin 2))
    (ignore_cursor : Bool) : HRes :=
  let dif := (ev.scenePos.sub ev.lastScenePos).neg
  let meX : ℚ := if s.mouseEnabledX then 1 else 0
  let meY : ℚ := if s.mouseEnabledY then 1 else 0
  let maskX : ℚ := if axis = some 1 then 0 else meX
  let maskY : ℚ := if axis = some 0 then 0 else meY
  if s.mouseMode = CursorMode ∧ ignore_cursor = false then
    if ev.button = MouseButton.left then
      match s.zoom_start with
      | some zs =>
        let endPt := mapSceneToView s ev.scenePos
        if ev.isFinish then
          ⟨{ s with zoom_start := none },
            [Eff.cursorMoved ev, Eff.zoomChanged (some (zs, endPt, s.zoom)),
              Eff.zoomFinished (zs, endPt, s.zoom), Eff.zoomChanged none], true⟩
        else
          ⟨s, [Eff.cursorMoved ev, Eff.zoomChanged (some (zs, endPt, s.zoom))], true⟩
      | none => ⟨s, [Eff.cursorMoved ev], true⟩
    else
      let t := (Affine.invert s.childTransform).mapDelta (dif.maskMul maskX maskY)
      let x : Option ℚ := if maskX = 1 then some t.x else none
      let s1 := resetTargetS s
      let s2 := match x with
        | some xv => applyTranslate s1 (some xv) (some 0)
        | none => s1
      let tEffs := match x with
        | some xv => [Eff.translateBy (some xv) (some 0)]
        | none => []
      ⟨s2, Eff.resetTarget :: tEffs ++
        [Eff.rangeChangedManually s.mouseEnabledX s.mouseEnabledY], true⟩
  else
    if ev.button = MouseButton.left ∨ ev.button = MouseButton.middle then
      let t := (Affine.invert s.childTransform).mapDelta (dif.maskMul maskX maskY)
      let x : Option ℚ := if maskX = 1 then some t.x else none
      let y : Option ℚ := if maskY = 1 then some t.y else none
      let s1 := resetTargetS s
      let s2 := if x ≠ none ∨ y ≠ none then applyTranslate s1 x y else s1
      let tEffs := if x ≠ none ∨ y ≠ none then [Eff.translateBy x y] else []
      ⟨s2, Eff.resetTarget :: tEffs ++
        [Eff.rangeChangedManually s.mouseEnabledX s.mouseEnabledY], true⟩
    else if ev.button = MouseButton.right then
      let maskX' : ℚ := if s.aspectLocked then 0 else maskX
      let sdx : ℤ := -(ev.screenPos.x - ev.lastScreenPos.x)
      let sdy : ℤ := ev.screenPos.y - ev.lastScreenPos.y
      let fx : ℚ := (maskX' * (2 / 100) + 1) ^ sdx
      let fy : ℚ := (maskY * (2 / 100) + 1) ^ sdy
      let x : Option ℚ := if meX = 1 then some fx else none
      let y : Option ℚ := if meY = 1 then some fy else none
      let center := (Affine.invert s.childTransform).map ev.buttonDownPosRight
      ⟨applyScale (resetTargetS s) x y center,
        [Eff.resetTarget, Eff.scaleBy x y center,
          Eff.rangeChangedManually s.mouseEnabledX s.mouseEnabledY], true⟩
    else
      ⟨s, [], true⟩

/-- The axis mask computed at the top of `ViewBoxWithCursor.wheelEvent`. -/
def wheelMask (s : VBState) (axis : Option ℤ) : Bool × Bool :=
  if s.mouseMode = CursorMode then (true, false)
  else if axis = some 0 then (s.mouseEnabledX, false)
  else if axis = some 1 then (false, s.mouseEnabledY)
  else (s.mouseEnabledX, s.mouseEnabledY)

/-- The guard of the wheel-centering branch: the persisted setting is on and
the cursor widget exists and is visible; when it holds, the cursor it read. -/
def centeringCursor (s : VBState) : Option CursorInfo :=
  if s.settingZoomXCenterOnCursor then Option.filter (fun c => c.visible) s.cursor
  else none

/-- `ViewBoxWithCursor.wheelEvent`. -/
def wheelEvent (s : VBState) (ev : WheelEv) (axis : Option ℤ) : HRes :=
  let mask := wheelMask s axis
  match centeringCursor s with
  | some c =>
    let delta := s.viewXmax - s.viewXmin
    let event_delta : ℚ := (ev.delta : ℚ) * (15 / 100) / 120
    let step := -delta * event_delta
    let pos := c.value
    let lo := pos - delta / 2
    let hi := pos + delta / 2
    ⟨applySetXRange s (lo - step) (hi + step) 0,
      [Eff.setXRange (lo - step) (hi + step) 0,
        Eff.rangeChangedManually mask.1 mask.2], true⟩
  | none =>
    let f : ℚ := (102 / 100) ^ (ev.delta * s.wheelScaleFactor)
    let fx : Option ℚ := if mask.1 then some f else none
    let fy : Option ℚ := if mask.2 then some f else none
    let center := (Affine.invert s.childTransform).map ev.pos
    ⟨applyScale (resetTargetS s) fx fy center,
      [Eff.resetTarget, Eff.scaleBy fx fy center,
        Eff.rangeChangedManually mask.1 mask.2], true⟩

/-- The checked state of the three mutually exclusive mouse-mode menu actions
(`self.mouseModes = [pan, cursor, zoom]`, one exclusive `QActionGroup`) and
the `valid` dirty flag of `ViewBoxMenu`. -/
structure MenuState where
  panChecked : Bool
  cursorChecked : Bool
  rectChecked : Bool
  valid : Bool
deriving DecidableEq, Repr

/-- `ViewBoxMenu.updateState`, reading `state["mouseMode"]` of the viewport:
`setChecked(True)` on an action in an exclusive group unchecks the others. -/
def updateState (m : MenuState) (mouseMode : ℤ) : MenuState :=
  if mouseMode = PanMode then
    { m with panChecked := true, cursorChecked := false, rectChecked := false, valid := true }
  else if mouseMode = CursorMode then
    { m with panChecked := false, cursorChecked := true, rectChecked := false, valid := true }
  else
    { m with panChecked := false, cursorChecked := false, rectChecked := true, valid := true }

def checkedCount (m : MenuState) : Nat :=
  (if m.panChecked then 1 else 0) + (if m.cursorChecked then 1 else 0) +
    (if m.rectChecked then 1 else 0)

/-- One input event dispatched by the host event loop to the viewport. -/
inductive UserEv
| key (ev : KeyEv)
| keyUp (ev : KeyEv)
| press (ev : PressEv)
| drag (ev : DragEv) (axis : Option (Fin 2)) (ignore_cursor : Bool)
deriving DecidableEq, Repr

/-- Dispatch one event to its handler and keep the resulting state. -/
def stepEv (s : VBState) : UserEv → VBState
| .key ev => (keyPressEvent s ev).state
| .keyUp ev => (keyReleaseEvent s ev).state
| .press ev => (mousePressEvent s ev).state
| .drag ev axis ic => (mouseDragEvent s ev axis ic).state

/-- Run a sequence of input events in dispatch order. -/
def run (s : VBState) : List UserEv → VBState
| [] => s
| e :: rest => run (stepEv s e) rest

/-- The zoom-gesture invariant the code actually maintains: whenever a gesture
start point is recorded, the viewport is in Cursor mode and the armed
modifier is one of the recognized zoom combinations. -/
def gestureInv (s : VBState) : Prop :=
  s.zoom_start ≠ none → s.mouseMode = CursorMode ∧ recognizedZoom s.zoom = true

def isZoomFinished : Eff → Bool
| .zoomFinished _ => true
| _ => false

/-- The effects a cursor-mode primary drag may produce: the cursor-moved
signal and the zoom-lifecycle signals. -/
def isCursorOrZoomSignal : Eff → Bool
| .cursorMoved _ => true
| .zoomChanged _ => true
| .zoomFinished _ => true
| _ => false

/-- A concrete viewport state used to instantiate theorems. -/
def sampleState : VBState where
  mouseMode := CursorMode
  mouseEnabledX := true
  mouseEnabledY := true
  aspectLocked := false
  wheelScaleFactor := 1
  zoom := none
  zoom_start := none
  childTransform := ⟨1, 1, 0, 0⟩
  targetSet := true
  viewXmin := 0
  viewXmax := 10
  viewYmin := 0
  viewYmax := 10
  cursor := none
  settingZoomXCenterOnCursor := false

/-- A concrete state in Pan mode with the aspect ratio locked. -/
def lockedPanState : VBState :=
  { sampleState with mouseMode := PanMode, aspectLocked := true }

/-- A concrete state with the centering setting on and a visible cursor at 4. -/
def centerWheelState : VBState :=
  { sampleState with cursor := some ⟨4, true⟩, settingZoomXCenterOnCursor := true }

end Viewbox

namespace Viewbox

theorem recognizedZoom_X : recognizedZoom (some X_zoom) = true := by decide

/-- Claim C2: an argument outside the three enumerated modes is rejected with
an error (so the stored mode is untouched); each of PanMode, CursorMode and
RectMode is accepted, stored, and a state-change notification is emitted. -/
theorem setMouseMode_validates (s : VBState) (mode : ℤ) :
    ((mode = PanMode ∨ mode = CursorMode ∨ mode = RectMode) →
      setMouseMode s mode = .ok ({ s with mouseMode := mode }, [Eff.stateChanged]))
    ∧ (¬(mode = PanMode ∨ mode = CursorMode ∨ mode = RectMode) →
      (∃ msg, setMouseMode s mode = .error msg)
        ∧ ∀ s' effs, setMouseMode s mode ≠ .ok (s', effs)) := by
  constructor
  · intro h
    simp [setMouseMode, h]
  · intro h
    have he : setMouseMode s mode = .error
        "Mode must be ViewBoxWithCursor.PanMode, ViewBoxWithCursor.RectMode or ViewBoxWithCursor.CursorMode" := by
      simp [setMouseMode, h]
    exact ⟨⟨_, he⟩, fun s' effs hok => by simp [he] at hok⟩

/-- Witness for C2 at PanMode (accepted) and at mode 0 (rejected). -/
theorem setMouseMode_validates_witness :
    (setMouseMode sampleState PanMode
      = .ok ({ sampleState with mouseMode := PanMode }, [Eff.stateChanged]))
    ∧ ((∃ msg, setMouseMode sampleState 0 = .error msg)
        ∧ ∀ s' effs, setMouseMode sampleState 0 ≠ .ok (s', effs)) :=
  ⟨(setMouseMode_validates sampleState PanMode).1 (Or.inl rfl),
    (setMouseMode_validates sampleState 0).2 (by decide)⟩

/-- Claim C7: the legacy string setter maps case-insensitively to the three
enumerated modes and rejects every other string with an error. -/
theorem setLeftButtonAction_mapping (s : VBState) (m : String) :
    (pyLower m = "pan" →
      setLeftButtonAction s m = .ok ({ s with mouseMode := PanMode }, [Eff.stateChanged]))
    ∧ (pyLower m = "cursor" →
      setLeftButtonAction s m = .ok ({ s with mouseMode := CursorMode }, [Eff.stateChanged]))
    ∧ (pyLower m = "rect" →
      setLeftButtonAction s m = .ok ({ s with mouseMode := RectMode }, [Eff.stateChanged]))
    ∧ ((pyLower m ≠ "pan" ∧ pyLower m ≠ "cursor" ∧ pyLower m ≠ "rect") →
      (∃ msg, setLeftButtonAction s m = .error msg)
        ∧ ∀ s' effs, setLeftButtonAction s m ≠ .ok (s', effs)) := by
  refine ⟨fun h => ?_, fun h => ?_, fun h => ?_, fun h => ?_⟩
  · simp [setLeftButtonAction, h, setMouseMode, PanMode, RectMode, CursorMode]
  · simp [setLeftButtonAction, h, setMouseMode, PanMode, RectMode, CursorMode]
  · simp [setLeftButtonAction, h, setMouseMode, PanMode, RectMode, CursorMode]
  · obtain ⟨h1, h2, h3⟩ := h
    have he : setLeftButtonAction s m = .error
        "graphicsItems:ViewBox:setLeftButtonAction: unknown mode (Options are pan, cursor and rect)" := by
      simp [setLeftButtonAction, h1, h2, h3]
    exact ⟨⟨_, he⟩, fun s' effs hok => by simp [he] at hok⟩

/-- Witness for C7 at the mixed-case string PAN and the invalid string zoom. -/
theorem setLeftButtonAction_mapping_witness :
    (setLeftButtonAction sampleState "PAN"
      = .ok ({ sampleState with mouseMode := PanMode }, [Eff.stateChanged]))
    ∧ ((∃ msg, setLeftButtonAction sampleState "zoom" = .error msg)
        ∧ ∀ s' effs, setLeftButtonAction sampleState "zoom" ≠ .ok (s', effs)) :=
  ⟨(setLeftButtonAction_mapping sampleState "PAN").1 (by decide),
    (setLeftButtonAction_mapping sampleState "zoom").2.2.2 (by decide)⟩

/-- Claim C8: after every successful mode change, the menu refresh checks
exactly one of the three entries, the one matching the viewport's new mode,
and refreshing again changes nothing. -/
theorem menu_updateState_radio (m : MenuState) (s : VBState) (mode : ℤ)
    (s' : VBState) (effs : List Eff) (h : setMouseMode s mode = .ok (s', effs)) :
    checkedCount (updateState m s'.mouseMode) = 1
    ∧ (s'.mouseMode = PanMode → (updateState m s'.mouseMode).panChecked = true)
    ∧ (s'.mouseMode = CursorMode → (updateState m s'.mouseMode).cursorChecked = true)
    ∧ (s'.mouseMode = RectMode → (updateState m s'.mouseMode).rectChecked = true)
    ∧ updateState (updateState m s'.mouseMode) s'.mouseMode
        = updateState m s'.mouseMode := by
  by_cases hp : s'.mouseMode = PanMode
  · simp [updateState, checkedCount, hp, PanMode, CursorMode, RectMode]
  · by_cases hc : s'.mouseMode = CursorMode
    · simp [updateState, checkedCount, hp, hc, PanMode, CursorMode, RectMode]
    · simp [updateState, checkedCount, hp, hc]

/-- Witness for C8 after a successful change to CursorMode. -/
theorem menu_updateState_radio_witness :
    checkedCount (updateState ⟨false, false, false, false⟩
        (VBState.mouseMode { sampleState with mouseMode := CursorMode })) = 1
    ∧ ((VBState.mouseMode { sampleState with mouseMode := CursorMode }) = PanMode →
        (updateState ⟨false, false, false, false⟩
          (VBState.mouseMode { sampleState with mouseMode := CursorMode })).panChecked = true)
    ∧ ((VBState.mouseMode { sampleState with mouseMode := CursorMode }) = CursorMode →
        (updateState ⟨false, false, false, false⟩
          (VBState.mouseMode { sampleState with mouseMode := CursorMode })).cursorChecked = true)
    ∧ ((VBState.mouseMode { sampleState with mouseMode := CursorMode }) = RectMode →
        (updateState ⟨false, false, false, false⟩
          (VBState.mouseMode { sampleState with mouseMode := CursorMode })).rectChecked = true)
    ∧ updateState (updateState ⟨false, false, false, false⟩
          (VBState.mouseMode { sampleState with mouseMode := CursorMode }))
          (VBState.mouseMode { sampleState with mouseMode := CursorMode })
        = updateState ⟨false, false, false, false⟩
          (VBState.mouseMode { sampleState with mouseMode := CursorMode }) :=
  menu_updateState_radio ⟨false, false, false, false⟩ sampleState CursorMode
    { sampleState with mouseMode := CursorMode } [Eff.stateChanged]
    (by simp [setMouseMode, CursorMode, PanMode, RectMode])

theorem mouseDragEvent_mode_eq (s : VBState) (ev : DragEv) (axis : Option (Fin 2))
    (ic : Bool) : (mouseDragEvent s ev axis ic).state.mouseMode = s.mouseMode := by
  simp only [mouseDragEvent]
  (repeat' split) <;> rfl

theorem mouseDragEvent_zoom_eq (s : VBState) (ev : DragEv) (axis : Option (Fin 2))
    (ic : Bool) : (mouseDragEvent s ev axis ic).state.zoom = s.zoom := by
  simp only [mouseDragEvent]
  (repeat' split) <;> rfl

theorem mouseDragEvent_zoom_start_cases (s : VBState) (ev : DragEv)
    (axis : Option (Fin 2)) (ic : Bool) :
    (mouseDragEvent s ev axis ic).state.zoom_start = s.zoom_start
      ∨ (mouseDragEvent s ev axis ic).state.zoom_start = none := by
  simp only [mouseDragEvent]
  (repeat' split) <;>
    first
    | (left ; rfl)
    | (right ; rfl)

theorem gestureInv_step (s : VBState) (e : UserEv) (h : gestureInv s) :
    gestureInv (stepEv s e) := by
  cases e with
  | key ev =>
    simp only [stepEv, keyPressEvent]
    split
    · intro hne
      simp_all [gestureInv]
    · exact h
  | keyUp ev =>
    simp only [stepEv, keyReleaseEvent]
    split
    · intro hne
      simp_all [gestureInv]
    · exact h
  | press ev =>
    simp only [stepEv, mousePressEvent]
    split
    · intro _
      simp_all [gestureInv]
    · exact h
  | drag ev axis ic =>
    simp only [stepEv]
    intro hne
    rcases mouseDragEvent_zoom_start_cases s ev axis ic with hz | hz
    · have := h (by rw [← hz]; exact hne)
      rw [mouseDragEvent_mode_eq, mouseDragEvent_zoom_eq]
      exact this
    · exact absurd hz hne

theorem gestureInv_run (evs : List UserEv) (s : VBState) (h : gestureInv s) :
    gestureInv (run s evs) := by
  induction evs generalizing s with
  | nil => exact h
  | cons e rest ih => exact ih _ (gestureInv_step s e h)

/-- Claim C1 counterexample: in Cursor mode, press Shift (arming the X-zoom
modifier), press the mouse (starting a gesture), then release Shift.  The
gesture state is still present afterwards — the key-release during an
in-progress gesture clears nothing at all, so the recorded start point is
non-empty while no recognized modifier is held any more, contradicting the
claim that such a release clears the gesture state. -/
theorem zoom_gesture_release_counterexample :
    (run sampleState [UserEv.key ⟨X_zoom⟩, UserEv.press ⟨⟨1, 2⟩⟩]).zoom_start ≠ none
    ∧ run sampleState [UserEv.key ⟨X_zoom⟩, UserEv.press ⟨⟨1, 2⟩⟩, UserEv.keyUp ⟨X_zoom⟩]
        = run sampleState [UserEv.key ⟨X_zoom⟩, UserEv.press ⟨⟨1, 2⟩⟩] := by
  constructor <;>
    simp [run, stepEv, sampleState, keyPressEvent, keyReleaseEvent, mousePressEvent,
      mapSceneToView, Affine.invert, Affine.map, recognizedZoom, CursorMode]

theorem keyPressEvent_zoom_start (s : VBState) (kev : KeyEv) :
    (keyPressEvent s kev).state.zoom_start = s.zoom_start := by
  simp only [keyPressEvent]
  split <;> rfl

theorem mousePressEvent_never_clears (s : VBState) (pev : PressEv) :
    (mousePressEvent s pev).state.zoom_start = none → s.zoom_start = none := by
  simp only [mousePressEvent]
  split
  · intro h
    simp at h
  · exact fun h => h

theorem mouseDragEvent_clears_only_finish (s : VBState) (ev : DragEv)
    (axis : Option (Fin 2)) (ic : Bool)
    (h : (mouseDragEvent s ev axis ic).state.zoom_start ≠ s.zoom_start) :
    (mouseDragEvent s ev axis ic).state.zoom_start = none
      ∧ ev.isFinish = true ∧ s.mouseMode = CursorMode ∧ ic = false
      ∧ ev.button = MouseButton.left := by
  revert h
  simp only [mouseDragEvent]
  (repeat' split) <;> intro h <;>
    first
    | exact absurd rfl h
    | simp_all

/-- Claim C1 (amended): for every sequence of key-press, key-release,
mouse-press and drag events started with no gesture in progress, the recorded
start point is non-empty only while Cursor mode is active and a recognized
zoom modifier is armed (stored in the `zoom` field); a key-release while a
gesture is in progress leaves the whole state — in particular the gesture
state — unchanged, and clears only the armed modifier when no gesture is in
progress; a key-press never changes the gesture state, a mouse-press never
clears it, and a drag clears it only when it is a finishing primary drag in
Cursor mode with cursor interaction not suppressed. -/
theorem zoom_gesture_state_invariant (s0 : VBState) (evs : List UserEv)
    (h0 : s0.zoom_start = none) :
    ((run s0 evs).zoom_start ≠ none →
        (run s0 evs).mouseMode = CursorMode
          ∧ recognizedZoom (run s0 evs).zoom = true)
    ∧ (∀ s : VBState, ∀ kev : KeyEv, s.zoom_start ≠ none →
        (keyReleaseEvent s kev).state = s)
    ∧ (∀ s : VBState, ∀ kev : KeyEv, s.zoom_start = none →
        (keyReleaseEvent s kev).state = { s with zoom := none })
    ∧ (∀ s : VBState, ∀ kev : KeyEv,
        (keyPressEvent s kev).state.zoom_start = s.zoom_start)
    ∧ (∀ s : VBState, ∀ pev : PressEv,
        (mousePressEvent s pev).state.zoom_start = none → s.zoom_start = none)
    ∧ (∀ s : VBState, ∀ ev : DragEv, ∀ axis : Option (Fin 2), ∀ ic : Bool,
        (mouseDragEvent s ev axis ic).state.zoom_start ≠ s.zoom_start →
          (mouseDragEvent s ev axis ic).state.zoom_start = none
            ∧ ev.isFinish = true ∧ s.mouseMode = CursorMode ∧ ic = false
            ∧ ev.button = MouseButton.left) := by
  refine ⟨gestureInv_run evs s0 (fun hne => absurd h0 hne), ?_, ?_,
    keyPressEvent_zoom_start, mousePressEvent_never_clears,
    mouseDragEvent_clears_only_finish⟩
  · intro s kev hne
    simp [keyReleaseEvent, hne]
  · intro s kev hz
    simp [keyReleaseEvent, hz]

/-- Witness for C1 (amended) on a concrete event sequence and concrete
key-release inputs. -/
theorem zoom_gesture_state_invariant_witness :
    ((run sampleState [UserEv.key ⟨X_zoom⟩, UserEv.press ⟨⟨1, 2⟩⟩,
          UserEv.keyUp ⟨X_zoom⟩]).mouseMode = CursorMode
        ∧ recognizedZoom (run sampleState [UserEv.key ⟨X_zoom⟩,
            UserEv.press ⟨⟨1, 2⟩⟩, UserEv.keyUp ⟨X_zoom⟩]).zoom = true)
    ∧ (keyReleaseEvent { sampleState with zoom_start := some ⟨1, 2⟩ } ⟨X_zoom⟩).state
        = { sampleState with zoom_start := some ⟨1, 2⟩ }
    ∧ (keyReleaseEvent sampleState ⟨X_zoom⟩).state = { sampleState with zoom := none }
    ∧ (keyPressEvent { sampleState with zoom_start := some ⟨1, 2⟩ } ⟨X_zoom⟩).state.zoom_start
        = ({ sampleState with zoom_start := some ⟨1, 2⟩ } : VBState).zoom_start
    ∧ sampleState.zoom_start = none
    ∧ ((mouseDragEvent { sampleState with zoom := some X_zoom, zoom_start := some ⟨1, 2⟩ }
          ⟨MouseButton.left, ⟨3, 4⟩, ⟨1, 2⟩, ⟨30, 40⟩, ⟨10, 20⟩, ⟨0, 0⟩, true⟩
          none false).state.zoom_start = none
        ∧ (⟨MouseButton.left, ⟨3, 4⟩, ⟨1, 2⟩, ⟨30, 40⟩, ⟨10, 20⟩, ⟨0, 0⟩, true⟩
            : DragEv).isFinish = true
        ∧ ({ sampleState with zoom := some X_zoom, zoom_start := some ⟨1, 2⟩ } : VBState).mouseMode
          = CursorMode
        ∧ (false : Bool) = false
        ∧ (⟨MouseButton.left, ⟨3, 4⟩, ⟨1, 2⟩, ⟨30, 40⟩, ⟨10, 20⟩, ⟨0, 0⟩, true⟩
            : DragEv).button = MouseButton.left) :=
  ⟨(zoom_gesture_state_invariant sampleState
      [UserEv.key ⟨X_zoom⟩, UserEv.press ⟨⟨1, 2⟩⟩, UserEv.keyUp ⟨X_zoom⟩] rfl).1
      (by simp [run, stepEv, sampleState, keyPressEvent, keyReleaseEvent, mousePressEvent,
        mapSceneToView, Affine.invert, Affine.map, recognizedZoom, CursorMode]),
    (zoom_gesture_state_invariant sampleState [] rfl).2.1 _ ⟨X_zoom⟩ (by simp),
    (zoom_gesture_state_invariant sampleState [] rfl).2.2.1 sampleState ⟨X_zoom⟩ rfl,
    (zoom_gesture_state_invariant sampleState [] rfl).2.2.2.1
      { sampleState with zoom_start := some ⟨1, 2⟩ } ⟨X_zoom⟩,
    (zoom_gesture_state_invariant sampleState [] rfl).2.2.2.2.1 sampleState ⟨⟨1, 2⟩⟩
      (by simp [mousePressEvent, sampleState, recognizedZoom]),
    (zoom_gesture_state_invariant sampleState [] rfl).2.2.2.2.2
      { sampleState with zoom := some X_zoom, zoom_start := some ⟨1, 2⟩ }
      ⟨MouseButton.left, ⟨3, 4⟩, ⟨1, 2⟩, ⟨30, 40⟩, ⟨10, 20⟩, ⟨0, 0⟩, true⟩ none false
      (by simp [mouseDragEvent, sampleState, CursorMode])⟩

/-- Claim C9: in Cursor mode with cursor interaction not suppressed, a
primary-button drag never mutates the view range, the child transform, or the
pending auto-range target, and emits only cursor-moved and zoom signals —
never a manual-range-change notification. -/
theorem cursor_drag_frame (s : VBState) (ev : DragEv) (axis : Option (Fin 2))
    (hm : s.mouseMode = CursorMode) (hb : ev.button = MouseButton.left) :
    (mouseDragEvent s ev axis false).state.viewXmin = s.viewXmin
    ∧ (mouseDragEvent s ev axis false).state.viewXmax = s.viewXmax
    ∧ (mouseDragEvent s ev axis false).state.viewYmin = s.viewYmin
    ∧ (mouseDragEvent s ev axis false).state.viewYmax = s.viewYmax
    ∧ (mouseDragEvent s ev axis false).state.childTransform = s.childTransform
    ∧ (mouseDragEvent s ev axis false).state.targetSet = s.targetSet
    ∧ (mouseDragEvent s ev axis false).effs.all isCursorOrZoomSignal = true := by
  simp only [mouseDragEvent, hm, hb]
  (repeat' split) <;>
    first
    | rfl
    | simp_all [isCursorOrZoomSignal]

/-- Witness for C9: a concrete primary drag during an active gesture. -/
theorem cursor_drag_frame_witness :
    (mouseDragEvent { sampleState with zoom := some X_zoom, zoom_start := some ⟨1, 2⟩ }
        ⟨MouseButton.left, ⟨3, 4⟩, ⟨1, 2⟩, ⟨30, 40⟩, ⟨10, 20⟩, ⟨0, 0⟩, true⟩
        none false).state.viewXmin
      = ({ sampleState with zoom := some X_zoom, zoom_start := some ⟨1, 2⟩ } : VBState).viewXmin
    ∧ (mouseDragEvent { sampleState with zoom := some X_zoom, zoom_start := some ⟨1, 2⟩ }
        ⟨MouseButton.left, ⟨3, 4⟩, ⟨1, 2⟩, ⟨30, 40⟩, ⟨10, 20⟩, ⟨0, 0⟩, true⟩
        none false).state.viewXmax
      = ({ sampleState with zoom := some X_zoom, zoom_start := some ⟨1, 2⟩ } : VBState).viewXmax
    ∧ (mouseDragEvent { sampleState with zoom := some X_zoom, zoom_start := some ⟨1, 2⟩ }
        ⟨MouseButton.left, ⟨3, 4⟩, ⟨1, 2⟩, ⟨30, 40⟩, ⟨10, 20⟩, ⟨0, 0⟩, true⟩
        none false).state.viewYmin
      = ({ sampleState with zoom := some X_zoom, zoom_start := some ⟨1, 2⟩ } : VBState).viewYmin
    ∧ (mouseDragEvent { sampleState with zoom := some X_zoom, zoom_start := some ⟨1, 2⟩ }
        ⟨MouseButton.left, ⟨3, 4⟩, ⟨1, 2⟩, ⟨30, 40⟩, ⟨10, 20⟩, ⟨0, 0⟩, true⟩
        none false).state.viewYmax
      = ({ sampleState with zoom := some X_zoom, zoom_start := some ⟨1, 2⟩ } : VBState).viewYmax
    ∧ (mouseDragEvent { sampleState with zoom := some X_zoom, zoom_start := some ⟨1, 2⟩ }
        ⟨MouseButton.left, ⟨3, 4⟩, ⟨1, 2⟩, ⟨30, 40⟩, ⟨10, 20⟩, ⟨0, 0⟩, true⟩
        none false).state.childTransform
      = ({ sampleState with zoom := some X_zoom, zoom_start := some ⟨1, 2⟩ } : VBState).childTransform
    ∧ (mouseDragEvent { sampleState with zoom := some X_zoom, zoom_start := some ⟨1, 2⟩ }
        ⟨MouseButton.left, ⟨3, 4⟩, ⟨1, 2⟩, ⟨30, 40⟩, ⟨10, 20⟩, ⟨0, 0⟩, true⟩
        none false).state.targetSet
      = ({ sampleState with zoom := some X_zoom, zoom_start := some ⟨1, 2⟩ } : VBState).targetSet
    ∧ (mouseDragEvent { sampleState with zoom := some X_zoom, zoom_start := some ⟨1, 2⟩ }
        ⟨MouseButton.left, ⟨3, 4⟩, ⟨1, 2⟩, ⟨30, 40⟩, ⟨10, 20⟩, ⟨0, 0⟩, true⟩
        none false).effs.all isCursorOrZoomSignal = true :=
  cursor_drag_frame { sampleState with zoom := some X_zoom, zoom_start := some ⟨1, 2⟩ }
    ⟨MouseButton.left, ⟨3, 4⟩, ⟨1, 2⟩, ⟨30, 40⟩, ⟨10, 20⟩, ⟨0, 0⟩, true⟩ none rfl rfl

/-- Claim C3: arming the X-zoom modifier by key-press and then pressing the
mouse in Cursor mode starts a gesture at the data-space press position; every
later primary non-finish drag emits zoom-changed with (recorded start,
current data-space endpoint, armed modifier) and leaves the state unchanged;
a finishing drag additionally emits zoom-finished exactly once with the same
payload, clears the gesture state, then emits zoom-changed with no payload;
a drag after that emits no zoom signal, only cursor-moved. -/
theorem x_zoom_gesture_lifecycle (s0 : VBState) (kev : KeyEv) (pev : PressEv)
    (d1 d2 d3 : DragEv)
    (hmode : s0.mouseMode = CursorMode) (hzs : s0.zoom_start = none)
    (hkey : kev.combined = X_zoom)
    (hb1 : d1.button = MouseButton.left) (hf1 : d1.isFinish = false)
    (hb2 : d2.button = MouseButton.left) (hf2 : d2.isFinish = true)
    (hb3 : d3.button = MouseButton.left) :
    (mousePressEvent (keyPressEvent s0 kev).state pev).state.zoom_start
        = some (mapSceneToView s0 pev.scenePos)
    ∧ (mousePressEvent (keyPressEvent s0 kev).state pev).state.zoom = some X_zoom
    ∧ (mouseDragEvent (mousePressEvent (keyPressEvent s0 kev).state pev).state
          d1 none false).effs
        = [Eff.cursorMoved d1,
            Eff.zoomChanged (some (mapSceneToView s0 pev.scenePos,
              mapSceneToView s0 d1.scenePos, some X_zoom))]
    ∧ (mouseDragEvent (mousePressEvent (keyPressEvent s0 kev).state pev).state
          d1 none false).state
        = (mousePressEvent (keyPressEvent s0 kev).state pev).state
    ∧ (mouseDragEvent (mousePressEvent (keyPressEvent s0 kev).state pev).state
          d2 none false).effs
        = [Eff.cursorMoved d2,
            Eff.zoomChanged (some (mapSceneToView s0 pev.scenePos,
              mapSceneToView s0 d2.scenePos, some X_zoom)),
            Eff.zoomFinished (mapSceneToView s0 pev.scenePos,
              mapSceneToView s0 d2.scenePos, some X_zoom),
            Eff.zoomChanged none]
    ∧ List.countP isZoomFinished
        (mouseDragEvent (mousePressEvent (keyPressEvent s0 kev).state pev).state
          d2 none false).effs = 1
    ∧ (mouseDragEvent (mousePressEvent (keyPressEvent s0 kev).state pev).state
          d2 none false).state.zoom_start = none
    ∧ (mouseDragEvent
          (mouseDragEvent (mousePressEvent (keyPressEvent s0 kev).state pev).state
            d2 none false).state d3 none false).effs
        = [Eff.cursorMoved d3] := by
  have h1 : (keyPressEvent s0 kev).state = { s0 with zoom := some X_zoom } := by
    simp [keyPressEvent, hzs, hkey]
  have h12 : (mousePressEvent (keyPressEvent s0 kev).state pev).state
      = { s0 with
          zoom := some X_zoom
          zoom_start := some (mapSceneToView s0 pev.scenePos) } := by
    rw [h1]
    simp [mousePressEvent, hmode, recognizedZoom_X, mapSceneToView]
  have hd2 : (mouseDragEvent (mousePressEvent (keyPressEvent s0 kev).state pev).state
      d2 none false).state = { s0 with zoom := some X_zoom, zoom_start := none } := by
    rw [h12]
    simp [mouseDragEvent, hmode, hb2, hf2]
  refine ⟨?_, ?_, ?_, ?_, ?_, ?_, ?_, ?_⟩
  · rw [h12]
  · rw [h12]
  · rw [h12]
    simp [mouseDragEvent, hmode, hb1, hf1, mapSceneToView]
  · rw [h12]
    simp [mouseDragEvent, hmode, hb1, hf1]
  · rw [h12]
    simp [mouseDragEvent, hmode, hb2, hf2, mapSceneToView]
  · rw [h12]
    simp [mouseDragEvent, hmode, hb2, hf2, isZoomFinished]
  · rw [hd2]
  · rw [hd2]
    simp [mouseDragEvent, hmode, hb3]

/-- Witness for C3: the lifecycle run on a concrete state and events. -/
theorem x_zoom_gesture_lifecycle_witness :
    (mousePressEvent (keyPressEvent sampleState ⟨X_zoom⟩).state ⟨⟨1, 2⟩⟩).state.zoom_start
        = some (mapSceneToView sampleState ⟨1, 2⟩)
    ∧ (mousePressEvent (keyPressEvent sampleState ⟨X_zoom⟩).state ⟨⟨1, 2⟩⟩).state.zoom
        = some X_zoom
    ∧ (mouseDragEvent (mousePressEvent (keyPressEvent sampleState ⟨X_zoom⟩).state
          ⟨⟨1, 2⟩⟩).state
          ⟨MouseButton.left, ⟨3, 4⟩, ⟨1, 2⟩, ⟨30, 40⟩, ⟨10, 20⟩, ⟨0, 0⟩, false⟩
          none false).effs
        = [Eff.cursorMoved ⟨MouseButton.left, ⟨3, 4⟩, ⟨1, 2⟩, ⟨30, 40⟩, ⟨10, 20⟩, ⟨0, 0⟩, false⟩,
            Eff.zoomChanged (some (mapSceneToView sampleState ⟨1, 2⟩,
              mapSceneToView sampleState ⟨3, 4⟩, some X_zoom))]
    ∧ (mouseDragEvent (mousePressEvent (keyPressEvent sampleState ⟨X_zoom⟩).state
          ⟨⟨1, 2⟩⟩).state
          ⟨MouseButton.left, ⟨3, 4⟩, ⟨1, 2⟩, ⟨30, 40⟩, ⟨10, 20⟩, ⟨0, 0⟩, false⟩
          none false).state
        = (mousePressEvent (keyPressEvent sampleState ⟨X_zoom⟩).state ⟨⟨1, 2⟩⟩).state
    ∧ (mouseDragEvent (mousePressEvent (keyPressEvent sampleState ⟨X_zoom⟩).state
          ⟨⟨1, 2⟩⟩).state
          ⟨MouseButton.left, ⟨5, 6⟩, ⟨3, 4⟩, ⟨50, 60⟩, ⟨30, 40⟩, ⟨0, 0⟩, true⟩
          none false).effs
        = [Eff.cursorMoved ⟨MouseButton.left, ⟨5, 6⟩, ⟨3, 4⟩, ⟨50, 60⟩, ⟨30, 40⟩, ⟨0, 0⟩, true⟩,
            Eff.zoomChanged (some (mapSceneToView sampleState ⟨1, 2⟩,
              mapSceneToView sampleState ⟨5, 6⟩, some X_zoom)),
            Eff.zoomFinished (mapSceneToView sampleState ⟨1, 2⟩,
              mapSceneToView sampleState ⟨5, 6⟩, some X_zoom),
            Eff.zoomChanged none]
    ∧ List.countP isZoomFinished
        (mouseDragEvent (mousePressEvent (keyPressEvent sampleState ⟨X_zoom⟩).state
          ⟨⟨1, 2⟩⟩).state
          ⟨MouseButton.left, ⟨5, 6⟩, ⟨3, 4⟩, ⟨50, 60⟩, ⟨30, 40⟩, ⟨0, 0⟩, true⟩
          none false).effs = 1
    ∧ (mouseDragEvent (mousePressEvent (keyPressEvent sampleState ⟨X_zoom⟩).state
          ⟨⟨1, 2⟩⟩).state
          ⟨MouseButton.left, ⟨5, 6⟩, ⟨3, 4⟩, ⟨50, 60⟩, ⟨30, 40⟩, ⟨0, 0⟩, true⟩
          none false).state.zoom_start = none
    ∧ (mouseDragEvent
          (mouseDragEvent (mousePressEvent (keyPressEvent sampleState ⟨X_zoom⟩).state
            ⟨⟨1, 2⟩⟩).state
            ⟨MouseButton.left, ⟨5, 6⟩, ⟨3, 4⟩, ⟨50, 60⟩, ⟨30, 40⟩, ⟨0, 0⟩, true⟩
            none false).state
          ⟨MouseButton.left, ⟨7, 8⟩, ⟨5, 6⟩, ⟨70, 80⟩, ⟨50, 60⟩, ⟨0, 0⟩, false⟩
          none false).effs
        = [Eff.cursorMoved ⟨MouseButton.left, ⟨7, 8⟩, ⟨5, 6⟩, ⟨70, 80⟩, ⟨50, 60⟩, ⟨0, 0⟩, false⟩] :=
  x_zoom_gesture_lifecycle sampleState ⟨X_zoom⟩ ⟨⟨1, 2⟩⟩
    ⟨MouseButton.left, ⟨3, 4⟩, ⟨1, 2⟩, ⟨30, 40⟩, ⟨10, 20⟩, ⟨0, 0⟩, false⟩
    ⟨MouseButton.left, ⟨5, 6⟩, ⟨3, 4⟩, ⟨50, 60⟩, ⟨30, 40⟩, ⟨0, 0⟩, true⟩
    ⟨MouseButton.left, ⟨7, 8⟩, ⟨5, 6⟩, ⟨70, 80⟩, ⟨50, 60⟩, ⟨0, 0⟩, false⟩
    rfl rfl rfl rfl rfl rfl rfl rfl

/-- Claim C6: a secondary-button drag handled in a non-cursor branch with the
aspect ratio locked applies an x-axis scale factor of exactly 1 (or no x
factor at all when the x axis is mouse-disabled), whatever the screen-space
drag distance, so the x range is left unchanged and only the y axis scales. -/
theorem right_drag_aspect_lock (s : VBState) (ev : DragEv) (axis : Option (Fin 2))
    (ic : Bool) (hb : ev.button = MouseButton.right)
    (hn : ¬(s.mouseMode = CursorMode ∧ ic = false)) (ha : s.aspectLocked = true) :
    (∃ fy c, mouseDragEvent s ev axis ic
        = ⟨applyScale (resetTargetS s) (if s.mouseEnabledX then some 1 else none) fy c,
            [Eff.resetTarget,
              Eff.scaleBy (if s.mouseEnabledX then some 1 else none) fy c,
              Eff.rangeChangedManually s.mouseEnabledX s.mouseEnabledY], true⟩)
    ∧ (mouseDragEvent s ev axis ic).state.viewXmin = s.viewXmin
    ∧ (mouseDragEvent s ev axis ic).state.viewXmax = s.viewXmax := by
  have hres : mouseDragEvent s ev axis ic
      = ⟨applyScale (resetTargetS s) (if s.mouseEnabledX then some 1 else none)
            (if s.mouseEnabledY then
                some (((if axis = some 0 then 0 else if s.mouseEnabledY then (1 : ℚ) else 0)
                    * (2 / 100) + 1) ^ (ev.screenPos.y - ev.lastScreenPos.y))
              else none)
            ((Affine.invert s.childTransform).map ev.buttonDownPosRight),
          [Eff.resetTarget,
            Eff.scaleBy (if s.mouseEnabledX then some 1 else none)
              (if s.mouseEnabledY then
                  some (((if axis = some 0 then 0 else if s.mouseEnabledY then (1 : ℚ) else 0)
                      * (2 / 100) + 1) ^ (ev.screenPos.y - ev.lastScreenPos.y))
                else none)
              ((Affine.invert s.childTransform).map ev.buttonDownPosRight),
            Eff.rangeChangedManually s.mouseEnabledX s.mouseEnabledY], true⟩ := by
    simp only [mouseDragEvent, hb, ha, if_neg hn]
    have hbl : ¬(MouseButton.right = MouseButton.left
        ∨ MouseButton.right = MouseButton.middle) := by decide
    rw [if_neg hbl]
    simp only [if_true, ite_true, zero_mul, zero_add, one_zpow]
    by_cases hex : s.mouseEnabledX <;> by_cases hey : s.mouseEnabledY <;>
      simp [hex, hey]
  refine ⟨⟨_, _, hres⟩, ?_, ?_⟩ <;>
    rw [hres] <;>
    by_cases hex : s.mouseEnabledX <;>
      simp [hex, applyScale, resetTargetS]

/-- Witness for C6: a concrete right-button drag in Pan mode with aspect
ratio locked. -/
theorem right_drag_aspect_lock_witness :
    (∃ fy c, mouseDragEvent lockedPanState
          ⟨MouseButton.right, ⟨5, 5⟩, ⟨0, 0⟩, ⟨10, 20⟩, ⟨0, 0⟩, ⟨1, 1⟩, false⟩ none false
        = ⟨applyScale (resetTargetS lockedPanState)
              (if lockedPanState.mouseEnabledX then some 1 else none) fy c,
            [Eff.resetTarget,
              Eff.scaleBy (if lockedPanState.mouseEnabledX then some 1 else none) fy c,
              Eff.rangeChangedManually lockedPanState.mouseEnabledX
                lockedPanState.mouseEnabledY], true⟩)
    ∧ (mouseDragEvent lockedPanState
        ⟨MouseButton.right, ⟨5, 5⟩, ⟨0, 0⟩, ⟨10, 20⟩, ⟨0, 0⟩, ⟨1, 1⟩, false⟩
        none false).state.viewXmin = lockedPanState.viewXmin
    ∧ (mouseDragEvent lockedPanState
        ⟨MouseButton.right, ⟨5, 5⟩, ⟨0, 0⟩, ⟨10, 20⟩, ⟨0, 0⟩, ⟨1, 1⟩, false⟩
        none false).state.viewXmax = lockedPanState.viewXmax :=
  right_drag_aspect_lock lockedPanState
    ⟨MouseButton.right, ⟨5, 5⟩, ⟨0, 0⟩, ⟨10, 20⟩, ⟨0, 0⟩, ⟨1, 1⟩, false⟩ none false
    rfl (by decide) rfl

/-- Claim C4: a wheel event with cursor-centering enabled and a visible
cursor at position p sets the x range, with zero padding, to an interval
whose midpoint is exactly p and whose width is the previous width scaled by
the factor 1 - 2 * delta * 0.15 / 120. -/
theorem wheel_center_on_cursor (s : VBState) (ev : WheelEv) (axis : Option ℤ)
    (c : CursorInfo) (hset : s.settingZoomXCenterOnCursor = true)
    (hc : s.cursor = some c) (hv : c.visible = true) :
    ∃ lo hi : ℚ,
      wheelEvent s ev axis
        = ⟨applySetXRange s lo hi 0,
            [Eff.setXRange lo hi 0,
              Eff.rangeChangedManually (wheelMask s axis).1 (wheelMask s axis).2], true⟩
      ∧ (lo + hi) / 2 = c.value
      ∧ hi - lo = (s.viewXmax - s.viewXmin) * (1 - 2 * (ev.delta : ℚ) * (15 / 100) / 120)
      ∧ (wheelEvent s ev axis).state.viewXmin = lo
      ∧ (wheelEvent s ev axis).state.viewXmax = hi := by
  have hcc : centeringCursor s = some c := by
    simp [centeringCursor, hset, hc, Option.filter, hv]
  refine ⟨c.value - (s.viewXmax - s.viewXmin) / 2
      - -(s.viewXmax - s.viewXmin) * ((ev.delta : ℚ) * (15 / 100) / 120),
    c.value + (s.viewXmax - s.viewXmin) / 2
      + -(s.viewXmax - s.viewXmin) * ((ev.delta : ℚ) * (15 / 100) / 120), ?_, ?_, ?_, ?_, ?_⟩
  · simp only [wheelEvent, hcc]
  · ring
  · ring
  · simp only [wheelEvent, hcc, applySetXRange]
    ring
  · simp only [wheelEvent, hcc, applySetXRange]
    ring

/-- Witness for C4: one wheel step with the cursor at 4 and x range 0..10. -/
theorem wheel_center_on_cursor_witness :
    ∃ lo hi : ℚ,
      wheelEvent centerWheelState ⟨120, ⟨0, 0⟩⟩ none
        = ⟨applySetXRange centerWheelState lo hi 0,
            [Eff.setXRange lo hi 0,
              Eff.rangeChangedManually (wheelMask centerWheelState none).1
                (wheelMask centerWheelState none).2], true⟩
      ∧ (lo + hi) / 2 = (⟨4, true⟩ : CursorInfo).value
      ∧ hi - lo = (centerWheelState.viewXmax - centerWheelState.viewXmin)
          * (1 - 2 * ((120 : ℤ) : ℚ) * (15 / 100) / 120)
      ∧ (wheelEvent centerWheelState ⟨120, ⟨0, 0⟩⟩ none).state.viewXmin = lo
      ∧ (wheelEvent centerWheelState ⟨120, ⟨0, 0⟩⟩ none).state.viewXmax = hi :=
  wheel_center_on_cursor centerWheelState ⟨120, ⟨0, 0⟩⟩ none ⟨4, true⟩ rfl rfl rfl

/-- Claim C5: a wheel event with cursor-centering not applying scales every
axis enabled in the computed mask by exactly 1.02 raised to delta times the
configured wheel scale factor, leaves disabled axes unscaled, anchors the
scale at the inverse-transformed event position, and clears the pending
auto-range target before scaling. -/
theorem wheel_scale_uniform (s : VBState) (ev : WheelEv) (axis : Option ℤ)
    (h : centeringCursor s = none) :
    wheelEvent s ev axis
      = ⟨applyScale (resetTargetS s)
            (if (wheelMask s axis).1 then
                some ((102 / 100 : ℚ) ^ (ev.delta * s.wheelScaleFactor)) else none)
            (if (wheelMask s axis).2 then
                some ((102 / 100 : ℚ) ^ (ev.delta * s.wheelScaleFactor)) else none)
            ((Affine.invert s.childTransform).map ev.pos),
          [Eff.resetTarget,
            Eff.scaleBy
              (if (wheelMask s axis).1 then
                  some ((102 / 100 : ℚ) ^ (ev.delta * s.wheelScaleFactor)) else none)
              (if (wheelMask s axis).2 then
                  some ((102 / 100 : ℚ) ^ (ev.delta * s.wheelScaleFactor)) else none)
              ((Affine.invert s.childTransform).map ev.pos),
            Eff.rangeChangedManually (wheelMask s axis).1 (wheelMask s axis).2], true⟩
    ∧ (wheelEvent s ev axis).state.targetSet = false := by
  constructor
  · simp only [wheelEvent, h]
  · simp only [wheelEvent, h, applyScale, resetTargetS]

/-- Witness for C5: one wheel unit in Cursor mode with centering off. -/
theorem wheel_scale_uniform_witness :
    wheelEvent sampleState ⟨1, ⟨0, 0⟩⟩ none
      = ⟨applyScale (resetTargetS sampleState)
            (if (wheelMask sampleState none).1 then
                some ((102 / 100 : ℚ) ^ ((1 : ℤ) * sampleState.wheelScaleFactor)) else none)
            (if (wheelMask sampleState none).2 then
                some ((102 / 100 : ℚ) ^ ((1 : ℤ) * sampleState.wheelScaleFactor)) else none)
            ((Affine.invert sampleState.childTransform).map ⟨0, 0⟩),
          [Eff.resetTarget,
            Eff.scaleBy
              (if (wheelMask sampleState none).1 then
                  some ((102 / 100 : ℚ) ^ ((1 : ℤ) * sampleState.wheelScaleFactor)) else none)
              (if (wheelMask sampleState none).2 then
                  some ((102 / 100 : ℚ) ^ ((1 : ℤ) * sampleState.wheelScaleFactor)) else none)
              ((Affine.invert sampleState.childTransform).map ⟨0, 0⟩),
            Eff.rangeChangedManually (wheelMask sampleState none).1
              (wheelMask sampleState none).2], true⟩
    ∧ (wheelEvent sampleState ⟨1, ⟨0, 0⟩⟩ none).state.targetSet = false :=
  wheel_scale_uniform sampleState ⟨1, ⟨0, 0⟩⟩ none rfl

/-- Claim C10: the key-press, key-release and mouse-press handlers always
leave the event unhandled, for every state and input — including a press that
starts a gesture and a key-press that arms a modifier. -/
theorem event_handlers_propagate (s : VBState) (kev : KeyEv) (pev : PressEv) :
    (keyPressEvent s kev).accepted = false
    ∧ (keyReleaseEvent s kev).accepted = false
    ∧ (mousePressEvent s pev).accepted = false :=
  ⟨rfl, rfl, rfl⟩

end Viewbox
